import Mathlib

/-!
Verification of the navigation-policy and popup-management layer of the
desktop client (`src/main/views/webContentEvents.ts`, class
`WebContentsEventManager`).

The logic of the layer itself (the ordered checks of `generateWillNavigate`,
`generateDidStartNavigation` and `generateNewWindowListener`, and the
shared-popup lifecycle) is embedded faithfully.  External collaborators —
the URL classifier `common/utils/url`, the window directory
`WindowManager`, the protocol dialog, the user-agent composer and the
custom scheme from `electron-builder.json` — are modelled as an abstract
environment `Env` of predicates and constants, since their code is outside
this module and the handlers only consume their boolean / option results.

Side effects (external-browser opens, dialog invocations, main-window
focusing, popup creation and loads, cookie flushes, `preventDefault`) are
reified as explicit result data so each handler is a pure function.
-/

namespace WebContentEvents

/-- The fields of a parsed WHATWG URL that this module reads directly
(`parsedURL.protocol`, `parsedURL.pathname`).  All other structure is only
ever consumed by the external classifier predicates, which take the whole
parsed value. -/
structure ParsedURL where
  protocol : String
  pathname : String
deriving Repr, DecidableEq

/-- External collaborators of `webContentEvents.ts`: the URL-classifier
predicates of `common/utils/url` (with the argument orders of the source
call sites), the `WindowManager` lookups, the calls-widget call id, the
custom scheme read from `electron-builder.json`, and `composeUserAgent`.
Server URLs are opaque strings here; `getServerURLFromWebContentsId`
returns `none` when no server origin resolves for a view. -/
structure Env where
  parseURL : String → Option ParsedURL
  isValidURI : String → Bool
  isTeamUrl : String → ParsedURL → Bool → Bool
  isAdminUrl : String → ParsedURL → Bool
  isChannelExportUrl : String → ParsedURL → Bool
  isCustomLoginURL : ParsedURL → String → Bool
  isTrustedURL : ParsedURL → String → Bool
  isInternalURL : String → ParsedURL → Bool
  isCallsPopOutURL : String → ParsedURL → String → Bool
  isPluginUrl : String → ParsedURL → Bool
  isManagedResource : String → ParsedURL → Bool
  getServerURLFromWebContentsId : Nat → Option String
  callID : Option String
  scheme : Option String
  composeUserAgent : String

/-- The shared popup window (`this.popupWindow`): its host-window identity
and the URL its `webContents.getURL()` reports.  A freshly constructed
`BrowserWindow` reports the empty URL; `loadURL` is modelled as updating
the field to the loaded URL. -/
structure PopupWin where
  id : Nat
  url : String
deriving Repr, DecidableEq

/-- `customLogins : Record<number, CustomLogin>` — per-webContents-id
record holding the `inProgress` flag; `none` means no entry was created
for that id. -/
def CustomLogins : Type := Nat → Option Bool

/-- JS truthiness of the `callID` string returned by
`callsWidgetWindow?.getCallID()`: absent or empty is falsy. -/
def strTruthy : Option String → Bool
  | none => false
  | some s => !s.isEmpty

/-- `if (serverURL && f(serverURL))`: the guard is false when no server
origin resolved, otherwise the predicate is applied. -/
def onServer (serverURL : Option String) (f : String → Bool) : Bool :=
  match serverURL with
  | none => false
  | some s => f s

/-- `isTrustedPopupWindow(webContents)`: false when no popup window
reference exists, otherwise compares `BrowserWindow.fromWebContents` of the
sender (modelled as the host-window id of the sender, `none` when the sender has
no window) with the popup. -/
def isTrustedPopupWindow (popup : Option PopupWin) (senderWindowId : Option Nat) : Bool :=
  match popup with
  | none => false
  | some p => senderWindowId == some p.id

/-- Outcome of the `will-navigate` handler: whether `event.preventDefault()`
was called, and whether `flushCookiesStore` was invoked on the default
session. -/
structure WillNavResult where
  prevented : Bool
  cookiesFlushed : Bool
deriving Repr, DecidableEq

/-- The handler of `generateWillNavigate`.  `none` models the undefined
behaviour of the non-null assertion `urlUtils.parseURL(url)!` when the URL
does not parse (the undefined value then flows into the classifier
predicates and the `.protocol` access).  Otherwise the ordered rules of
lines 56–81 are applied: team/admin/trusted-popup, channel export, custom
login, `mailto:`, custom-login-in-progress (with cookie flush), calls
pop-out, and finally `preventDefault`. -/
def willNavigate (env : Env) (customLogins : CustomLogins) (popup : Option PopupWin)
    (contentID : Nat) (senderWindowId : Option Nat) (url : String) :
    Option WillNavResult :=
  match env.parseURL url with
  | none => none
  | some parsedURL =>
    let serverURL := env.getServerURLFromWebContentsId contentID
    if onServer serverURL (fun s =>
        env.isTeamUrl s parsedURL false || env.isAdminUrl s parsedURL ||
          isTrustedPopupWindow popup senderWindowId) then
      some ⟨false, false⟩
    else if onServer serverURL (fun s => env.isChannelExportUrl s parsedURL) then
      some ⟨false, false⟩
    else if onServer serverURL (fun s => env.isCustomLoginURL parsedURL s) then
      some ⟨false, false⟩
    else if parsedURL.protocol == "mailto:" then
      some ⟨false, false⟩
    else if (customLogins contentID).getD false then
      some ⟨false, true⟩
    else if onServer serverURL (fun s =>
        strTruthy env.callID &&
          env.isCallsPopOutURL s parsedURL ((env.callID).getD "")) then
      some ⟨false, false⟩
    else
      some ⟨true, false⟩

/-- The handler of `generateDidStartNavigation`, returning the updated
`customLogins` record, or `none` where the source throws: when the
destination is trusted for a known server origin but
`this.customLogins[contentID]` has no entry, both branches dereference the
missing record (`.inProgress = true` or reading `.inProgress`), a runtime
type error.  `none` is also returned when a known origin meets an
unparseable URL, where the non-null-asserted `parseURL(url)!` value reaches
`isTrustedURL` (with `!serverURL` short-circuiting the guard first, an
unknown origin returns unchanged even for unparseable URLs). -/
def didStartNavigation (env : Env) (customLogins : CustomLogins)
    (contentID : Nat) (url : String) : Option CustomLogins :=
  match env.getServerURLFromWebContentsId contentID with
  | none => some customLogins
  | some serverURL =>
    match env.parseURL url with
    | none => none
    | some parsedURL =>
      if !(env.isTrustedURL parsedURL serverURL) then
        some customLogins
      else if env.isCustomLoginURL parsedURL serverURL then
        match customLogins contentID with
        | none => none
        | some _ => some (fun i => if i = contentID then some true else customLogins i)
      else
        match customLogins contentID with
        | none => none
        | some inProgress =>
          if inProgress && env.isInternalURL serverURL parsedURL then
            some (fun i => if i = contentID then some false else customLogins i)
          else
            some customLogins

/-- The three literal pathname regexes of `generateNewWindowListener`.
`matchPublicFiles` is `/^(\/api\/v[3-4]\/public)*\/files\//`: zero or more
repetitions of `/api/v3/public` or `/api/v4/public` (each repetition
independently v3 or v4), then `/files/`.  The greedy strip is exact here
because the repeated unit starts with `/a` and the tail with `/f`, so
regex backtracking can never succeed at a shorter repetition count; the
fuel (each unit is 14 characters long) is bounded by the string length.
The matchers work on the underlying character lists of the pathname, so
every match is plain list-prefix computation. -/
def stripPublicReps : Nat → List Char → List Char
  | 0, s => s
  | n + 1, s =>
    if ("/api/v3/public".data.isPrefixOf s || "/api/v4/public".data.isPrefixOf s) then
      stripPublicReps n (s.drop 14)
    else s

/-- `pathname.match(/^(\/api\/v[3-4]\/public)*\/files\//)` as a Bool. -/
def matchPublicFiles (pathname : String) : Bool :=
  "/files/".data.isPrefixOf (stripPublicReps pathname.length pathname.data)

/-- `pathname.match(/^\/api\/v[3-4]\/image/)` as a Bool. -/
def matchImageProxy (pathname : String) : Bool :=
  "/api/v3/image".data.isPrefixOf pathname.data ||
    "/api/v4/image".data.isPrefixOf pathname.data

/-- `pathname.match(/^\/help\//)` as a Bool. -/
def matchHelp (pathname : String) : Bool :=
  "/help/".data.isPrefixOf pathname.data

/-- The template literal `` `${scheme}:` `` where
`scheme = protocols[0]?.schemes[0]` from `electron-builder.json`: an
undefined scheme interpolates to the literal text `undefined`. -/
def schemeProtocol : Option String → String
  | none => "undefined:"
  | some s => s ++ ":"

/-- The action result (deny or allow) of a window-open handler. -/
inductive WindowOpenAction where
  | allow
  | deny
deriving Repr, DecidableEq

/-- Reified side effects of the window-open handler, in execution order:
`shell.openExternal`, `allowProtocolDialog.handleDialogEvent`,
`WindowManager.showMainWindow`, construction of a `BrowserWindow` for the
shared popup (with the spellcheck preference its web preferences receive),
and `popupWindow.loadURL` (with the user-agent override, `none` for the
default user agent). -/
inductive Effect where
  | openExternal (url : String)
  | protocolDialog (protocol url : String)
  | showMainWindow (p : ParsedURL)
  | createPopup (id : Nat) (spellcheck : Bool)
  | loadURL (id : Nat) (url : String) (userAgent : Option String)
deriving Repr, DecidableEq

/-- Result of one invocation of the window-open handler: the returned
action, the side effects performed, the resulting `popupWindow` reference,
and the next fresh host-window identity (ghost data used to name created
popups). -/
structure NewWindowResult where
  action : WindowOpenAction
  effects : List Effect
  popup : Option PopupWin
  nextId : Nat
deriving Repr, DecidableEq

/-- `this.popupWindow && this.popupWindow.webContents.getURL() === details.url`. -/
def popupAtURL (popup : Option PopupWin) (url : String) : Bool :=
  match popup with
  | none => false
  | some p => p.url == url

/-- The handler of `generateNewWindowListener(webContentsId, spellcheck)`, the
ordered policy of lines 114–218: unparseable URL (deny, log only),
`devtools:` (allow), non-http(s)/custom protocol (dialog, deny), invalid
URI (external, deny), unresolved server origin (external, deny), public
files / image proxy / help pathnames (external, deny), team URL (focus main
window, deny), admin URL (deny), popup already at this exact URL (deny),
plugin or managed-resource URL (create the popup when absent — white
background, hidden, centered, spellcheck defaulting to true — then load it,
managed resources with the default user agent and other plugin URLs with
`composeUserAgent()`; deny), and the external-open fallback (deny).
The handler is layered into three definitions following the three sections
of the source function: `popupBranch` (lines 179–213, the popup
construction/reuse and load), `serverBranch` (lines 144–217, the checks
made once a server origin resolved), and `newWindowListener` itself (the
guards of lines 114–142 before the origin lookup). -/
def popupBranch (env : Env) (spellcheck : Option Bool) (serverURL : String)
    (parsedURL : ParsedURL) (popup : Option PopupWin) (nextId : Nat)
    (url : String) : NewWindowResult :=
  let created : PopupWin × List Effect × Nat :=
    match popup with
    | some p => (p, [], nextId)
    | none =>
      (⟨nextId, ""⟩, [Effect.createPopup nextId (spellcheck.getD true)], nextId + 1)
  let p := created.1
  let ua : Option String :=
    if env.isManagedResource serverURL parsedURL then none
    else some env.composeUserAgent
  ⟨.deny, created.2.1 ++ [.loadURL p.id url ua], some ⟨p.id, url⟩, created.2.2⟩

/-- The checks of `generateNewWindowListener` once a server origin has
resolved: public-file, image-proxy and help pathnames (external, deny),
team URL (focus main window, deny), admin URL (deny), popup already at
this exact URL (deny), plugin or managed-resource URL (popup branch), and
the external-open fallback. -/
def serverBranch (env : Env) (spellcheck : Option Bool) (serverURL : String)
    (parsedURL : ParsedURL) (popup : Option PopupWin) (nextId : Nat)
    (url : String) : NewWindowResult :=
  if matchPublicFiles parsedURL.pathname then
    ⟨.deny, [.openExternal url], popup, nextId⟩
  else if matchImageProxy parsedURL.pathname then
    ⟨.deny, [.openExternal url], popup, nextId⟩
  else if matchHelp parsedURL.pathname then
    ⟨.deny, [.openExternal url], popup, nextId⟩
  else if env.isTeamUrl serverURL parsedURL true then
    ⟨.deny, [.showMainWindow parsedURL], popup, nextId⟩
  else if env.isAdminUrl serverURL parsedURL then
    ⟨.deny, [], popup, nextId⟩
  else if popupAtURL popup url then
    ⟨.deny, [], popup, nextId⟩
  else if env.isPluginUrl serverURL parsedURL ||
      env.isManagedResource serverURL parsedURL then
    popupBranch env spellcheck serverURL parsedURL popup nextId url
  else
    ⟨.deny, [.openExternal url], popup, nextId⟩

/-- The handler of `generateNewWindowListener(webContentsId, spellcheck)`:
unparseable URL (deny, log only), `devtools:` (allow),
non-http(s)/custom protocol (dialog, deny), invalid URI (external, deny),
unresolved server origin (external, deny), otherwise `serverBranch`. -/
def newWindowListener (env : Env) (webContentsId : Nat) (spellcheck : Option Bool)
    (popup : Option PopupWin) (nextId : Nat) (url : String) : NewWindowResult :=
  match env.parseURL url with
  | none => ⟨.deny, [], popup, nextId⟩
  | some parsedURL =>
    if parsedURL.protocol == "devtools:" then
      ⟨.allow, [], popup, nextId⟩
    else if parsedURL.protocol != "http:" && parsedURL.protocol != "https:" &&
        parsedURL.protocol != schemeProtocol env.scheme then
      ⟨.deny, [.protocolDialog parsedURL.protocol url], popup, nextId⟩
    else if !(env.isValidURI url) then
      ⟨.deny, [.openExternal url], popup, nextId⟩
    else
      match env.getServerURLFromWebContentsId webContentsId with
      | none => ⟨.deny, [.openExternal url], popup, nextId⟩
      | some serverURL =>
        serverBranch env spellcheck serverURL parsedURL popup nextId url

/-- State of the shared-popup subsystem across a run: the value of the
`popupWindow` reference, a fresh-identity counter for newly constructed
`BrowserWindow`s, and the ghost list of popup windows that have been
constructed and whose `closed` signal has not yet fired (the live popup
windows). -/
structure PopupSys where
  popup : Option PopupWin
  nextId : Nat
  live : List Nat
deriving Repr, DecidableEq

/-- Events driving the popup subsystem: a window-open request dispatched to
the handler of `generateNewWindowListener`, and the single-shot `closed` signal
of a popup window (whose once-closed listener clears
`this.popupWindow`). -/
inductive SysEvent where
  | windowOpen (webContentsId : Nat) (spellcheck : Option Bool) (url : String)
  | popupClosed (id : Nat)
deriving Repr, DecidableEq

/-- Identities of the popup windows a handler invocation constructed. -/
def createdIds (effs : List Effect) : List Nat :=
  effs.filterMap fun e =>
    match e with
    | .createPopup i _ => some i
    | _ => none

/-- One step of the popup subsystem.  A `closed` signal can only come from
a live window; it removes the window and runs its once-closed listener,
which sets `this.popupWindow = undefined`. -/
def sysStep (env : Env) (st : PopupSys) : SysEvent → PopupSys
  | .windowOpen wcid sc url =>
    let r := newWindowListener env wcid sc st.popup st.nextId url
    ⟨r.popup, r.nextId, createdIds r.effects ++ st.live⟩
  | .popupClosed i =>
    if i ∈ st.live then ⟨none, st.nextId, st.live.erase i⟩ else st

/-- The initial state: no popup reference, no live popup window. -/
def initSys : PopupSys := ⟨none, 0, []⟩

/-- The popup invariant: either no popup window is referenced and none is
live, or exactly one is live and it is the referenced one. -/
def PopupInv (st : PopupSys) : Prop :=
  (st.popup = none ∧ st.live = []) ∨ (∃ w, st.popup = some w ∧ st.live = [w.id])

/-- A record with the custom-login entry of view 1 set to `inProgress = true`. -/
def clTrue : CustomLogins := fun i => if i = 1 then some true else none

/-- A record with the custom-login entry of view 1 set to `inProgress = false`. -/
def clFalse : CustomLogins := fun i => if i = 1 then some false else none

/-- A record with no custom-login entry for any view. -/
def clNone : CustomLogins := fun _ => none

/-- A concrete environment in which every classifier predicate is false, no
URL parses, and no view has a server origin; the custom scheme is the
production value. -/
def baseEnv : Env where
  parseURL := fun _ => none
  isValidURI := fun _ => false
  isTeamUrl := fun _ _ _ => false
  isAdminUrl := fun _ _ => false
  isChannelExportUrl := fun _ _ => false
  isCustomLoginURL := fun _ _ => false
  isTrustedURL := fun _ _ => false
  isInternalURL := fun _ _ => false
  isCallsPopOutURL := fun _ _ _ => false
  isPluginUrl := fun _ _ => false
  isManagedResource := fun _ _ => false
  getServerURLFromWebContentsId := fun _ => none
  callID := none
  scheme := some "mattermost"
  composeUserAgent := "desktop-user-agent"

/-- `baseEnv` where every URL parses as an https URL with itself for a
pathname, every URI is valid, and view 1 belongs to a known server. -/
def envKnown : Env :=
  { baseEnv with
    parseURL := fun u => some ⟨"https:", u⟩
    isValidURI := fun _ => true
    getServerURLFromWebContentsId := fun i =>
      if i = 1 then some "https://team.example.com" else none }

/-- `envKnown` where every URL is a team URL of its server. -/
def envTeam : Env := { envKnown with isTeamUrl := fun _ _ _ => true }

/-- `envKnown` where every URL is trusted and matches the custom-login
pattern of its server. -/
def envLogin : Env :=
  { envKnown with
    isTrustedURL := fun _ _ => true
    isCustomLoginURL := fun _ _ => true }

/-- `envKnown` where every URL parses with the short pathname `/admin/x`
and is the admin-console URL of its server. -/
def envAdmin : Env :=
  { envKnown with
    parseURL := fun _ => some ⟨"https:", "/admin/x"⟩
    isAdminUrl := fun _ _ => true }

/-- `baseEnv` where every URL parses as https but no URI is valid. -/
def envInvalid : Env :=
  { baseEnv with parseURL := fun u => some ⟨"https:", u⟩ }

/-- `baseEnv` where every URL parses with the `devtools:` protocol. -/
def envDevtools : Env :=
  { baseEnv with parseURL := fun u => some ⟨"devtools:", u⟩ }

/-- `baseEnv` where every URL parses with the `ftp:` protocol. -/
def envFtp : Env :=
  { baseEnv with parseURL := fun u => some ⟨"ftp:", u⟩ }

/-- `baseEnv` where every URL parses as https and is valid, but no view has
a server origin. -/
def envNoServer : Env :=
  { baseEnv with
    parseURL := fun u => some ⟨"https:", u⟩
    isValidURI := fun _ => true }

/-- `envKnown` where every URL parses with the short pathname `/plugins/x`
and is a plugin URL of its server (and not a managed resource). -/
def envPlugin : Env :=
  { envKnown with
    parseURL := fun _ => some ⟨"https:", "/plugins/x"⟩
    isPluginUrl := fun _ _ => true }

/-- `envKnown` where every URL parses with the short pathname `/pp` and no
classifier predicate holds. -/
def envPlain : Env :=
  { envKnown with parseURL := fun _ => some ⟨"https:", "/pp"⟩ }

/-- C1: for a will-navigate event from a view with a known server origin,
a destination that is the team URL or the admin-console URL of that server
is allowed (`preventDefault` is not called, nothing is flushed); and when
none of the six ordered allow rules matches (team/admin/trusted-popup,
channel export, custom login, `mailto:`, custom-login in progress, calls
pop-out), the handler calls `preventDefault`. -/
theorem c1_willNavigate_team_admin_allowed_else_prevented
    (env : Env) (cl : CustomLogins) (popup : Option PopupWin)
    (cid : Nat) (swid : Option Nat) (url : String) (p : ParsedURL) (s : String)
    (hp : env.parseURL url = some p)
    (hs : env.getServerURLFromWebContentsId cid = some s) :
    ((env.isTeamUrl s p false = true ∨ env.isAdminUrl s p = true) →
      willNavigate env cl popup cid swid url = some ⟨false, false⟩) ∧
    (env.isTeamUrl s p false = false → env.isAdminUrl s p = false →
      isTrustedPopupWindow popup swid = false →
      env.isChannelExportUrl s p = false →
      env.isCustomLoginURL p s = false →
      p.protocol ≠ "mailto:" →
      (cl cid).getD false = false →
      (strTruthy env.callID &&
        env.isCallsPopOutURL s p ((env.callID).getD "")) = false →
      willNavigate env cl popup cid swid url = some ⟨true, false⟩) := by
  constructor
  · intro h
    unfold willNavigate
    rw [hp]
    rcases h with h | h <;> simp [hs, onServer, h]
  · intro hteam hadmin htp hexp hlog hmail hip hcall
    unfold willNavigate
    rw [hp]
    simp [hs, onServer, hteam, hadmin, htp, hexp, hlog, hmail, hip, hcall]

/-- C1 witness: concrete instances of both conjuncts. -/
theorem c1_witness :
    willNavigate envTeam clNone none 1 none "https://team.example.com/ch" =
      some ⟨false, false⟩ ∧
    willNavigate envKnown clNone none 1 none "https://evil.example.com/x" =
      some ⟨true, false⟩ := by
  constructor
  · exact (c1_willNavigate_team_admin_allowed_else_prevented envTeam clNone none 1 none
      "https://team.example.com/ch" ⟨"https:", "https://team.example.com/ch"⟩
      "https://team.example.com" rfl rfl).1 (Or.inl rfl)
  · exact (c1_willNavigate_team_admin_allowed_else_prevented envKnown clNone none 1 none
      "https://evil.example.com/x" ⟨"https:", "https://evil.example.com/x"⟩
      "https://team.example.com" rfl rfl).2 rfl rfl rfl rfl rfl (by decide) rfl rfl

/-- C8: for a will-navigate event from a view whose custom-login
`inProgress` flag is set, when none of the earlier allow rules matches
(team/admin/trusted-popup, channel export, custom login — all vacuous when
no server origin resolves — and `mailto:`), the handler allows the
navigation and flushes the default-session cookie store. -/
theorem c8_willNavigate_inProgress_allows_and_flushes
    (env : Env) (cl : CustomLogins) (popup : Option PopupWin)
    (cid : Nat) (swid : Option Nat) (url : String) (p : ParsedURL)
    (hp : env.parseURL url = some p)
    (hin : cl cid = some true)
    (hsrv : ∀ s, env.getServerURLFromWebContentsId cid = some s →
      env.isTeamUrl s p false = false ∧ env.isAdminUrl s p = false ∧
      env.isChannelExportUrl s p = false ∧ env.isCustomLoginURL p s = false)
    (htp : isTrustedPopupWindow popup swid = false)
    (hmail : p.protocol ≠ "mailto:") :
    willNavigate env cl popup cid swid url = some ⟨false, true⟩ := by
  unfold willNavigate
  rw [hp]
  cases hso : env.getServerURLFromWebContentsId cid with
  | none => simp [hso, onServer, hmail, hin]
  | some s =>
    obtain ⟨h1, h2, h3, h4⟩ := hsrv s hso
    simp [hso, onServer, h1, h2, h3, h4, htp, hmail, hin]

/-- C8 witness: a view with no resolvable server origin and the flag set is
allowed to navigate, with a cookie flush. -/
theorem c8_witness :
    willNavigate envInvalid clTrue none 1 none "https://somewhere.example/x" =
      some ⟨false, true⟩ :=
  c8_willNavigate_inProgress_allows_and_flushes envInvalid clTrue none 1 none
    "https://somewhere.example/x" ⟨"https:", "https://somewhere.example/x"⟩
    rfl rfl (fun _ hs => Option.noConfusion hs) rfl (by decide)

/-- C2: the did-start-navigation handler (for a view whose custom-login
entry exists where it is consulted) leaves the record unchanged when no
server origin is known or the destination is not trusted for it; sets the
`inProgress` flag to true when the destination matches the custom-login
pattern (so an already-set flag stays set); and clears a set flag when the
destination is instead an internal URL of the server. -/
theorem c2_didStartNavigation_flag_transitions
    (env : Env) (cl : CustomLogins) (cid : Nat) (url : String) :
    (env.getServerURLFromWebContentsId cid = none →
      didStartNavigation env cl cid url = some cl) ∧
    (∀ s p, env.getServerURLFromWebContentsId cid = some s →
      env.parseURL url = some p → env.isTrustedURL p s = false →
      didStartNavigation env cl cid url = some cl) ∧
    (∀ s p b, env.getServerURLFromWebContentsId cid = some s →
      env.parseURL url = some p → env.isTrustedURL p s = true →
      env.isCustomLoginURL p s = true → cl cid = some b →
      ∃ cl', didStartNavigation env cl cid url = some cl' ∧
        cl' cid = some true ∧ ∀ j, j ≠ cid → cl' j = cl j) ∧
    (∀ s p, env.getServerURLFromWebContentsId cid = some s →
      env.parseURL url = some p → env.isTrustedURL p s = true →
      env.isCustomLoginURL p s = false → cl cid = some true →
      env.isInternalURL s p = true →
      ∃ cl', didStartNavigation env cl cid url = some cl' ∧
        cl' cid = some false ∧ ∀ j, j ≠ cid → cl' j = cl j) := by
  refine ⟨?_, ?_, ?_, ?_⟩
  · intro h
    unfold didStartNavigation
    rw [h]
  · intro s p hs hp ht
    unfold didStartNavigation
    rw [hs, hp]
    simp [ht]
  · intro s p b hs hp ht hlog hcl
    unfold didStartNavigation
    rw [hs, hp, hcl]
    simp only [ht, Bool.not_true, Bool.false_eq_true, if_false, hlog, if_true]
    exact ⟨_, rfl, by simp, fun j hj => by simp [hj]⟩
  · intro s p hs hp ht hlog hcl hint
    unfold didStartNavigation
    rw [hs, hp, hcl]
    simp only [ht, Bool.not_true, Bool.false_eq_true, if_false, hlog, hint,
      Bool.true_and, if_true]
    exact ⟨_, rfl, by simp, fun j hj => by simp [hj]⟩

/-- C2 witness: under a trusted custom-login destination, the flag of view 1
(previously false) becomes true and other entries are untouched. -/
theorem c2_witness :
    ∃ cl', didStartNavigation envLogin clFalse 1 "https://idp.example/sso" = some cl' ∧
      cl' 1 = some true ∧ ∀ j, j ≠ 1 → cl' j = clFalse j :=
  (c2_didStartNavigation_flag_transitions envLogin clFalse 1
    "https://idp.example/sso").2.2.1 "https://team.example.com"
    ⟨"https:", "https://idp.example/sso"⟩ false rfl rfl rfl rfl rfl

/-- C10: for a trusted destination on a view with a known server origin,
the did-start-navigation handler dereferences the per-view custom-login
record without a guard — with no session entry for the view the update
throws (modelled `none`), while with an entry it completes. -/
theorem c10_didStartNavigation_requires_session_entry
    (env : Env) (cl : CustomLogins) (cid : Nat) (url : String)
    (s : String) (p : ParsedURL)
    (hs : env.getServerURLFromWebContentsId cid = some s)
    (hp : env.parseURL url = some p)
    (ht : env.isTrustedURL p s = true) :
    (cl cid = none → didStartNavigation env cl cid url = none) ∧
    (∀ b, cl cid = some b → (didStartNavigation env cl cid url).isSome = true) := by
  constructor
  · intro hcl
    unfold didStartNavigation
    rw [hs, hp, hcl]
    simp only [ht, Bool.not_true, Bool.false_eq_true, if_false]
    cases henv : env.isCustomLoginURL p s <;> simp [henv]
  · intro b hcl
    unfold didStartNavigation
    rw [hs, hp, hcl]
    simp only [ht, Bool.not_true, Bool.false_eq_true, if_false]
    cases henv : env.isCustomLoginURL p s <;>
      cases hb : b && env.isInternalURL s p <;> simp [henv, hb]

/-- C10 witness: view 2 has a session entry in neither record, so the
trusted custom-login navigation throws; view 1 with an entry completes. -/
theorem c10_witness :
    didStartNavigation { envLogin with
        getServerURLFromWebContentsId := fun _ => some "https://team.example.com" }
      clNone 2 "https://idp.example/sso" = none :=
  (c10_didStartNavigation_requires_session_entry
    { envLogin with
        getServerURLFromWebContentsId := fun _ => some "https://team.example.com" }
    clNone 2 "https://idp.example/sso" "https://team.example.com"
    ⟨"https:", "https://idp.example/sso"⟩ rfl rfl rfl).1 rfl

/-- C3: a window-open request from a view with a known server origin, whose
URL parses as HTTP(S), is a valid URI, is not a public-file, image-proxy or
help pathname, is not the team URL, and is the admin-console URL, is denied
with no side effect at all: no external-browser open, no popup creation or
load, the popup reference unchanged. -/
theorem c3_newWindow_admin_denied_no_effects
    (env : Env) (wcid : Nat) (sc : Option Bool) (popup : Option PopupWin)
    (nid : Nat) (url : String) (p : ParsedURL) (s : String)
    (hp : env.parseURL url = some p)
    (hproto : p.protocol = "http:" ∨ p.protocol = "https:")
    (hvalid : env.isValidURI url = true)
    (hs : env.getServerURLFromWebContentsId wcid = some s)
    (hpub : matchPublicFiles p.pathname = false)
    (himg : matchImageProxy p.pathname = false)
    (hhelp : matchHelp p.pathname = false)
    (hteam : env.isTeamUrl s p true = false)
    (hadmin : env.isAdminUrl s p = true) :
    newWindowListener env wcid sc popup nid url = ⟨.deny, [], popup, nid⟩ := by
  unfold newWindowListener serverBranch
  rw [hp]
  have hdev : (p.protocol == "devtools:") = false := by
    rcases hproto with h | h <;> simp [h]
  have hhttp : (p.protocol != "http:" && p.protocol != "https:" &&
      p.protocol != schemeProtocol env.scheme) = false := by
    rcases hproto with h | h <;> simp [h]
  simp [hdev, hhttp, hvalid, hs, hpub, himg, hhelp, hteam, hadmin]

/-- C3 witness: an admin-console request from view 1 is denied with no
effects. -/
theorem c3_witness :
    newWindowListener envAdmin 1 none none 0 "https://team.example.com/admin_console/x" =
      ⟨.deny, [], none, 0⟩ := by
  exact c3_newWindow_admin_denied_no_effects envAdmin 1 none none 0
    "https://team.example.com/admin_console/x" ⟨"https:", "/admin/x"⟩
    "https://team.example.com" rfl (Or.inr rfl) rfl rfl (by decide) (by decide)
    (by decide) rfl rfl

/-- C4 counterexample: for a URL the parser rejects, the policy returns
deny with no side effects — in particular it does not open the URL in
the external browser, contradicting the claim that unparseable URLs are
opened externally. -/
theorem c4_counterexample :
    newWindowListener baseEnv 1 none none 0 "notaurl" = ⟨.deny, [], none, 0⟩ ∧
    Effect.openExternal "notaurl" ∉
      (newWindowListener baseEnv 1 none none 0 "notaurl").effects := by
  constructor
  · rfl
  · intro h
    rw [show (newWindowListener baseEnv 1 none none 0 "notaurl").effects = []
      from rfl] at h
    cases h

/-- C4 amended: a window-open request whose URL the parser rejects is
denied with no side effect (logged only); one whose URL parses with an
http, https or custom-scheme protocol but fails the validity check is
opened in the external browser and denied in-process. -/
theorem c4_amended_unparseable_deny_invalid_external
    (env : Env) (wcid : Nat) (sc : Option Bool) (popup : Option PopupWin)
    (nid : Nat) (url : String) :
    (env.parseURL url = none →
      newWindowListener env wcid sc popup nid url = ⟨.deny, [], popup, nid⟩) ∧
    (∀ p, env.parseURL url = some p →
      (p.protocol = "http:" ∨ p.protocol = "https:" ∨
        p.protocol = schemeProtocol env.scheme) →
      p.protocol ≠ "devtools:" →
      env.isValidURI url = false →
      newWindowListener env wcid sc popup nid url =
        ⟨.deny, [.openExternal url], popup, nid⟩) := by
  constructor
  · intro h
    unfold newWindowListener
    rw [h]
  · intro p hp hproto hdev hvalid
    unfold newWindowListener
    rw [hp]
    have hd : (p.protocol == "devtools:") = false := by
      simpa using hdev
    have hhttp : (p.protocol != "http:" && p.protocol != "https:" &&
        p.protocol != schemeProtocol env.scheme) = false := by
      rcases hproto with h | h | h <;> simp [h]
    simp [hd, hhttp, hvalid]

/-- C4 amended witness: both conjuncts at concrete inputs — an unparseable
URL is denied silently, an invalid https URI is opened externally. -/
theorem c4_amended_witness :
    newWindowListener baseEnv 3 none none 0 "::" = ⟨.deny, [], none, 0⟩ ∧
    newWindowListener envInvalid 3 none none 0 "https://bad^uri" =
      ⟨.deny, [.openExternal "https://bad^uri"], none, 0⟩ := by
  constructor
  · exact (c4_amended_unparseable_deny_invalid_external baseEnv 3 none none 0 "::").1 rfl
  · exact (c4_amended_unparseable_deny_invalid_external envInvalid 3 none none 0
      "https://bad^uri").2 ⟨"https:", "https://bad^uri"⟩ rfl (Or.inr (Or.inl rfl))
      (by decide) rfl

/-- C5 counterexample: `devtools:` is none of `http:`, `https:` or the
custom scheme (`mattermost:`), yet the policy allows the open in-process
with no effects — it neither invokes the protocol-confirmation dialog nor
returns deny, contradicting the claim. -/
theorem c5_counterexample :
    envDevtools.parseURL "devtools://inspector" = some ⟨"devtools:", "devtools://inspector"⟩ ∧
    ("devtools:" ≠ "http:" ∧ "devtools:" ≠ "https:" ∧
      "devtools:" ≠ schemeProtocol envDevtools.scheme) ∧
    newWindowListener envDevtools 1 none none 0 "devtools://inspector" =
      ⟨.allow, [], none, 0⟩ := by
  refine ⟨rfl, ⟨by decide, by decide, by decide⟩, rfl⟩

/-- C5 amended: a window-open request whose parsed protocol is none of
`devtools:`, `http:`, `https:` or the custom scheme triggers exactly the
protocol-confirmation dialog and is denied; the popup reference is
untouched, so popup creation is never reached. -/
theorem c5_amended_custom_protocol_dialog_deny
    (env : Env) (wcid : Nat) (sc : Option Bool) (popup : Option PopupWin)
    (nid : Nat) (url : String) (p : ParsedURL)
    (hp : env.parseURL url = some p)
    (hdev : p.protocol ≠ "devtools:")
    (h1 : p.protocol ≠ "http:")
    (h2 : p.protocol ≠ "https:")
    (h3 : p.protocol ≠ schemeProtocol env.scheme) :
    newWindowListener env wcid sc popup nid url =
      ⟨.deny, [.protocolDialog p.protocol url], popup, nid⟩ := by
  unfold newWindowListener
  rw [hp]
  simp [hdev, h1, h2, h3]

/-- C5 amended witness: an `ftp:` request triggers the dialog and is
denied. -/
theorem c5_amended_witness :
    newWindowListener envFtp 1 none none 0 "ftp://files.example/x" =
      ⟨.deny, [.protocolDialog "ftp:" "ftp://files.example/x"], none, 0⟩ := by
  exact c5_amended_custom_protocol_dialog_deny envFtp 1 none none 0
    "ftp://files.example/x" ⟨"ftp:", "ftp://files.example/x"⟩
    rfl (by decide) (by decide) (by decide) (by decide)

/-- C6 counterexample: a plugin request from view 1 creates the shared
popup at the requested URL; a second request for that exact URL, now from
view 9 (no resolvable server origin), is opened in the external browser —
contradicting the claim that every such request performs no external
open. -/
theorem c6_counterexample :
    (sysStep envPlugin initSys
        (.windowOpen 1 none "https://team.example.com/plugins/x")).popup =
      some ⟨0, "https://team.example.com/plugins/x"⟩ ∧
    popupAtURL (some ⟨0, "https://team.example.com/plugins/x"⟩)
      "https://team.example.com/plugins/x" = true ∧
    newWindowListener envPlugin 9 none
        (some ⟨0, "https://team.example.com/plugins/x"⟩) 1
        "https://team.example.com/plugins/x" =
      ⟨.deny, [.openExternal "https://team.example.com/plugins/x"],
        some ⟨0, "https://team.example.com/plugins/x"⟩, 1⟩ :=
  ⟨rfl, rfl, rfl⟩

/-- C6 amended: a request whose URL equals the exact current URL of the
existing shared popup, and which passes the earlier policy steps (parses
with an http, https or custom-scheme protocol, is a valid URI, has a known
server origin, and is not a public-file, image-proxy or help pathname nor
the team URL), is denied with no effect: no second window, no load, no
external open, popup reference unchanged. -/
theorem c6_amended_popup_same_url_denied
    (env : Env) (wcid : Nat) (sc : Option Bool) (nid : Nat) (url : String)
    (p : ParsedURL) (s : String) (pw : PopupWin)
    (hp : env.parseURL url = some p)
    (hproto : p.protocol = "http:" ∨ p.protocol = "https:" ∨
      p.protocol = schemeProtocol env.scheme)
    (hdev : p.protocol ≠ "devtools:")
    (hvalid : env.isValidURI url = true)
    (hs : env.getServerURLFromWebContentsId wcid = some s)
    (hpub : matchPublicFiles p.pathname = false)
    (himg : matchImageProxy p.pathname = false)
    (hhelp : matchHelp p.pathname = false)
    (hteam : env.isTeamUrl s p true = false)
    (hpop : pw.url = url) :
    newWindowListener env wcid sc (some pw) nid url = ⟨.deny, [], some pw, nid⟩ := by
  unfold newWindowListener serverBranch
  rw [hp]
  have hd : (p.protocol == "devtools:") = false := by simpa using hdev
  have hhttp : (p.protocol != "http:" && p.protocol != "https:" &&
      p.protocol != schemeProtocol env.scheme) = false := by
    rcases hproto with h | h | h <;> simp [h]
  have hpu : popupAtURL (some pw) url = true := by simp [popupAtURL, hpop]
  cases hadmin : env.isAdminUrl s p <;>
    simp [hd, hhttp, hvalid, hs, hpub, himg, hhelp, hteam, hadmin, hpu]

/-- C6 amended witness: a duplicate-URL request that passes the earlier
steps is a pure deny. -/
theorem c6_amended_witness :
    newWindowListener envPlain 1 none (some ⟨5, "https://team.example.com/pp"⟩) 6
        "https://team.example.com/pp" =
      ⟨.deny, [], some ⟨5, "https://team.example.com/pp"⟩, 6⟩ := by
  exact c6_amended_popup_same_url_denied envPlain 1 none 6
    "https://team.example.com/pp" ⟨"https:", "/pp"⟩ "https://team.example.com"
    ⟨5, "https://team.example.com/pp"⟩ rfl (Or.inr (Or.inl rfl)) (by decide) rfl rfl
    (by decide) (by decide) (by decide) rfl rfl

/-- C7: in the popup branch (a qualifying plugin or managed-resource
request that passed every earlier step), the popup — reused if present,
freshly constructed otherwise — loads the URL with the default user agent
when the URL is a managed resource, and with the substituted desktop user
agent (`composeUserAgent()`) when it is a plugin URL that is not a managed
resource; the request itself is denied in-process. -/
theorem c7_popup_load_user_agent
    (env : Env) (wcid : Nat) (sc : Option Bool) (popup : Option PopupWin)
    (nid : Nat) (url : String) (p : ParsedURL) (s : String)
    (hp : env.parseURL url = some p)
    (hproto : p.protocol = "http:" ∨ p.protocol = "https:" ∨
      p.protocol = schemeProtocol env.scheme)
    (hdev : p.protocol ≠ "devtools:")
    (hvalid : env.isValidURI url = true)
    (hs : env.getServerURLFromWebContentsId wcid = some s)
    (hpub : matchPublicFiles p.pathname = false)
    (himg : matchImageProxy p.pathname = false)
    (hhelp : matchHelp p.pathname = false)
    (hteam : env.isTeamUrl s p true = false)
    (hadmin : env.isAdminUrl s p = false)
    (hnodup : popupAtURL popup url = false)
    (hclass : env.isPluginUrl s p = true ∨ env.isManagedResource s p = true) :
    (∀ pw, popup = some pw →
      newWindowListener env wcid sc popup nid url =
        ⟨.deny,
          [.loadURL pw.id url
            (if env.isManagedResource s p then none else some env.composeUserAgent)],
          some ⟨pw.id, url⟩, nid⟩) ∧
    (popup = none →
      newWindowListener env wcid sc popup nid url =
        ⟨.deny,
          [.createPopup nid (sc.getD true),
            .loadURL nid url
              (if env.isManagedResource s p then none else some env.composeUserAgent)],
          some ⟨nid, url⟩, nid + 1⟩) := by
  have hd : (p.protocol == "devtools:") = false := by simpa using hdev
  have hhttp : (p.protocol != "http:" && p.protocol != "https:" &&
      p.protocol != schemeProtocol env.scheme) = false := by
    rcases hproto with h | h | h <;> simp [h]
  have hb : (env.isPluginUrl s p || env.isManagedResource s p) = true := by
    rcases hclass with h | h <;> simp [h]
  constructor
  · intro pw hpw
    subst hpw
    unfold newWindowListener serverBranch popupBranch
    rw [hp]
    simp [hd, hhttp, hvalid, hs, hpub, himg, hhelp, hteam, hadmin, hnodup, hb]
  · intro hpw
    subst hpw
    unfold newWindowListener serverBranch popupBranch
    rw [hp]
    simp [hd, hhttp, hvalid, hs, hpub, himg, hhelp, hteam, hadmin, hnodup, hb]

/-- C7 witness: a plugin URL with no existing popup constructs the popup
(spellcheck defaulting to true) and loads it with the substituted desktop
user agent. -/
theorem c7_witness :
    newWindowListener envPlugin 1 none none 0 "https://team.example.com/plugins/x" =
      ⟨.deny,
        [.createPopup 0 true,
          .loadURL 0 "https://team.example.com/plugins/x" (some "desktop-user-agent")],
        some ⟨0, "https://team.example.com/plugins/x"⟩, 1⟩ := by
  exact (c7_popup_load_user_agent envPlugin 1 none none 0
    "https://team.example.com/plugins/x" ⟨"https:", "/plugins/x"⟩
    "https://team.example.com" rfl (Or.inr (Or.inl rfl)) (by decide) rfl rfl
    (by decide) (by decide) (by decide) rfl rfl rfl (Or.inl rfl)).2 rfl

/-- The popup branch with no popup referenced constructs exactly the one
popup it then references. -/
theorem popupBranch_none_spec (env : Env) (sc : Option Bool) (s : String)
    (p : ParsedURL) (nid : Nat) (url : String) :
    (popupBranch env sc s p none nid url).popup = some ⟨nid, url⟩ ∧
    createdIds (popupBranch env sc s p none nid url).effects = [nid] := by
  simp [popupBranch, createdIds]

/-- The popup branch with a popup referenced constructs nothing and keeps
the same window. -/
theorem popupBranch_some_spec (env : Env) (sc : Option Bool) (s : String)
    (p : ParsedURL) (pw : PopupWin) (nid : Nat) (url : String) :
    (popupBranch env sc s p (some pw) nid url).popup = some ⟨pw.id, url⟩ ∧
    createdIds (popupBranch env sc s p (some pw) nid url).effects = [] := by
  simp [popupBranch, createdIds]

/-- The server branch with no popup referenced either leaves the reference
empty creating nothing, or constructs exactly the one popup it then
references. -/
theorem serverBranch_no_popup (env : Env) (sc : Option Bool) (s : String)
    (p : ParsedURL) (nid : Nat) (url : String) :
    ((serverBranch env sc s p none nid url).popup = none ∧
      createdIds (serverBranch env sc s p none nid url).effects = []) ∨
    ((serverBranch env sc s p none nid url).popup = some ⟨nid, url⟩ ∧
      createdIds (serverBranch env sc s p none nid url).effects = [nid]) := by
  suffices h : ∀ r, serverBranch env sc s p none nid url = r →
      (r.popup = none ∧ createdIds r.effects = []) ∨
      (r.popup = some ⟨nid, url⟩ ∧ createdIds r.effects = [nid]) from h _ rfl
  intro r hr
  unfold serverBranch at hr
  repeat' split at hr
  all_goals subst hr
  all_goals first
    | exact Or.inl ⟨rfl, rfl⟩
    | exact Or.inr (popupBranch_none_spec env sc s p nid url)

/-- The server branch with a popup referenced constructs nothing and keeps
referencing the same window (possibly after loading a new URL into it). -/
theorem serverBranch_with_popup (env : Env) (sc : Option Bool) (s : String)
    (p : ParsedURL) (pw : PopupWin) (nid : Nat) (url : String) :
    ((serverBranch env sc s p (some pw) nid url).popup = some pw ∨
      (serverBranch env sc s p (some pw) nid url).popup = some ⟨pw.id, url⟩) ∧
    createdIds (serverBranch env sc s p (some pw) nid url).effects = [] := by
  suffices h : ∀ r, serverBranch env sc s p (some pw) nid url = r →
      (r.popup = some pw ∨ r.popup = some ⟨pw.id, url⟩) ∧
      createdIds r.effects = [] from h _ rfl
  intro r hr
  unfold serverBranch at hr
  repeat' split at hr
  all_goals subst hr
  all_goals first
    | exact ⟨Or.inl rfl, rfl⟩
    | exact ⟨Or.inr (popupBranch_some_spec env sc s p pw nid url).1,
        (popupBranch_some_spec env sc s p pw nid url).2⟩

/-- With no popup referenced, one handler invocation either leaves the
reference empty creating nothing, or constructs exactly the one popup it
then references. -/
theorem newWindow_from_no_popup (env : Env) (wcid : Nat) (sc : Option Bool)
    (nid : Nat) (url : String) :
    ((newWindowListener env wcid sc none nid url).popup = none ∧
      createdIds (newWindowListener env wcid sc none nid url).effects = []) ∨
    ((newWindowListener env wcid sc none nid url).popup = some ⟨nid, url⟩ ∧
      createdIds (newWindowListener env wcid sc none nid url).effects = [nid]) := by
  suffices h : ∀ r, newWindowListener env wcid sc none nid url = r →
      (r.popup = none ∧ createdIds r.effects = []) ∨
      (r.popup = some ⟨nid, url⟩ ∧ createdIds r.effects = [nid]) from h _ rfl
  intro r hr
  unfold newWindowListener at hr
  repeat' split at hr
  all_goals subst hr
  all_goals first
    | exact Or.inl ⟨rfl, rfl⟩
    | exact serverBranch_no_popup env sc _ _ nid url

/-- With a popup already referenced, one handler invocation constructs
nothing and keeps referencing the same window (possibly after loading a new
URL into it). -/
theorem newWindow_from_popup (env : Env) (wcid : Nat) (sc : Option Bool)
    (pw : PopupWin) (nid : Nat) (url : String) :
    ((newWindowListener env wcid sc (some pw) nid url).popup = some pw ∨
      (newWindowListener env wcid sc (some pw) nid url).popup = some ⟨pw.id, url⟩) ∧
    createdIds (newWindowListener env wcid sc (some pw) nid url).effects = [] := by
  suffices h : ∀ r, newWindowListener env wcid sc (some pw) nid url = r →
      (r.popup = some pw ∨ r.popup = some ⟨pw.id, url⟩) ∧
      createdIds r.effects = [] from h _ rfl
  intro r hr
  unfold newWindowListener at hr
  repeat' split at hr
  all_goals subst hr
  all_goals first
    | exact ⟨Or.inl rfl, rfl⟩
    | exact serverBranch_with_popup env sc _ _ pw nid url

/-- The popup invariant is preserved by every step of the subsystem. -/
theorem popupInv_sysStep (env : Env) (st : PopupSys) (ev : SysEvent)
    (h : PopupInv st) : PopupInv (sysStep env st ev) := by
  cases ev with
  | windowOpen wcid sc url =>
    obtain ⟨pop, nid, live⟩ := st
    rcases h with ⟨hp, hl⟩ | ⟨w, hp, hl⟩ <;> simp only at hp hl <;> subst hp <;> subst hl
    · rcases newWindow_from_no_popup env wcid sc nid url with ⟨h1, h2⟩ | ⟨h1, h2⟩
      · exact Or.inl ⟨by simpa [sysStep] using h1, by simp [sysStep, h2]⟩
      · exact Or.inr ⟨⟨nid, url⟩, by simpa [sysStep] using h1, by simp [sysStep, h2]⟩
    · obtain ⟨h1 | h1, h2⟩ := newWindow_from_popup env wcid sc w nid url
      · exact Or.inr ⟨w, by simpa [sysStep] using h1, by simp [sysStep, h2]⟩
      · exact Or.inr ⟨⟨w.id, url⟩, by simpa [sysStep] using h1, by simp [sysStep, h2]⟩
  | popupClosed i =>
    obtain ⟨pop, nid, live⟩ := st
    rcases h with ⟨hp, hl⟩ | ⟨w, hp, hl⟩ <;> simp only at hp hl <;> subst hp <;> subst hl
    · exact Or.inl ⟨by simp [sysStep], by simp [sysStep]⟩
    · by_cases hmem : i ∈ [w.id]
      · have hi : i = w.id := by simpa using hmem
        subst hi
        exact Or.inl ⟨by simp [sysStep], by simp [sysStep]⟩
      · have hi : ¬i = w.id := by simpa using hmem
        exact Or.inr ⟨w, by simp [sysStep, hi], by simp [sysStep, hi]⟩

/-- The popup invariant holds in every state reachable by a trace. -/
theorem popupInv_foldl (env : Env) (evs : List SysEvent) (st : PopupSys)
    (h : PopupInv st) : PopupInv (evs.foldl (sysStep env) st) := by
  induction evs generalizing st with
  | nil => exact h
  | cons e es ih => exact ih _ (popupInv_sysStep env st e h)

/-- C9: at most one shared popup window exists at any time — after any
sequence of window-open requests and popup-closed signals from the initial
state, at most one constructed popup window is live (the handler constructs
a popup only when the shared reference is empty, and the once-closed
listener clears the reference). -/
theorem c9_at_most_one_live_popup (env : Env) (evs : List SysEvent) :
    (evs.foldl (sysStep env) initSys).live.length ≤ 1 := by
  have h := popupInv_foldl env evs initSys (Or.inl ⟨rfl, rfl⟩)
  rcases h with ⟨_, hl⟩ | ⟨_, _, hl⟩ <;> simp [hl]

end WebContentEvents
